import Mathlib

/-!
Verification of the IPCom home-automation client (HomeAnywhere integration).

Shallow embedding of the protocol and session engine:
* `IPComEncryption` — the stateful XOR cipher of
  `src/ipcom/ipcom_tcp_client.py`, class `IPComEncryption` (lines 24-197).
* `StateSnapshot`, `Frame` — `src/custom_components/ipcom/cli/models.py`.
* frame builders — `src/custom_components/ipcom/cli/frame_builder.py`.
* `setValue`, `parseFrames`, snapshot handling — `IPComClient` in
  `src/ipcom/ipcom_tcp_client.py`.
* cover safety — `control_cover` in
  `src/custom_components/ipcom/cli/ipcom_cli.py` and the cover entity in
  `src/custom_components/ipcom/cover.py`.
* restart backoff — `src/custom_components/ipcom/coordinator.py`.

Bytes are modelled as natural numbers (Python `bytes` elements are 0-255;
the embedding keeps the operations' exact Nat arithmetic, with list
indexing returning `Option`/`Except` exactly where Python indexing can
raise `IndexError`).

The file is organised as definitions first (the embedding), then the
theorems settling the claims.
-/

set_option maxRecDepth 10000

namespace IPCom

/-- The 256-byte PRIVATE_KEY table, `ipcom_tcp_client.py` lines 33-60. -/
def PRIVATE_KEY : List Nat := [
  83, 131, 251, 50, 127, 126, 154, 233, 1, 179,
  127, 128, 6, 207, 57, 38, 111, 93, 37, 91,
  30, 38, 40, 196, 179, 120, 4, 172, 159, 11,
  174, 157, 87, 172, 78, 130, 14, 180, 186, 108,
  39, 56, 10, 113, 155, 225, 247, 253, 20, 204,
  20, 13, 113, 229, 184, 247, 124, 203, 224, 11,
  4, 120, 177, 127, 43, 234, 133, 65, 149, 34,
  24, 238, 6, 255, 121, 19, 38, 211, 8, 16,
  117, 4, 83, 108, 4, 253, 145, 243, 49, 147,
  182, 20, 227, 83, 246, 206, 110, 195, 116, 254,
  206, 98, 1, 189, 141, 17, 38, 57, 10, 116,
  81, 202, 86, 66, 81, 213, 123, 142, 166, 71,
  220, 127, 116, 9, 144, 143, 154, 242, 12, 116,
  129, 100, 16, 13, 100, 206, 84, 181, 120, 129,
  165, 144, 54, 235, 130, 201, 231, 92, 189, 63,
  59, 41, 211, 47, 34, 110, 111, 36, 221, 251,
  221, 152, 0, 29, 75, 130, 206, 18, 209, 51,
  41, 34, 79, 146, 249, 148, 235, 18, 87, 47,
  250, 48, 199, 241, 157, 114, 202, 141, 37, 235,
  44, 61, 227, 251, 204, 188, 84, 17, 83, 37,
  226, 206, 120, 249, 220, 111, 232, 226, 251, 65,
  60, 237, 111, 154, 177, 243, 114, 120, 2, 204,
  145, 61, 32, 127, 190, 233, 83, 212, 251, 255,
  110, 66, 177, 246, 94, 77, 20, 3, 180, 251,
  47, 83, 122, 188, 158, 167, 206, 142, 202, 8,
  196, 123, 25, 161, 43, 127]

/-- The 256-byte PRIVATE_KEY2 table (rotation of PRIVATE_KEY),
`ipcom_tcp_client.py` lines 64-91. -/
def PRIVATE_KEY2 : List Nat := [
  12, 116, 129, 100, 16, 13, 100, 206, 84, 181,
  120, 129, 165, 144, 54, 235, 130, 201, 231, 92,
  189, 63, 59, 41, 211, 47, 34, 110, 111, 36,
  221, 251, 221, 152, 0, 29, 75, 130, 206, 18,
  209, 51, 41, 34, 79, 146, 249, 148, 235, 18,
  87, 47, 250, 48, 199, 241, 157, 114, 202, 141,
  37, 235, 44, 61, 227, 251, 204, 188, 84, 17,
  83, 37, 226, 206, 120, 249, 220, 111, 232, 226,
  251, 65, 60, 237, 111, 154, 177, 243, 114, 120,
  2, 204, 145, 61, 32, 127, 190, 233, 83, 212,
  251, 255, 110, 66, 177, 246, 94, 77, 20, 3,
  180, 251, 47, 83, 122, 188, 158, 167, 206, 142,
  202, 8, 196, 123, 25, 161, 43, 127, 83, 131,
  251, 50, 127, 126, 154, 233, 1, 179, 127, 128,
  6, 207, 57, 38, 111, 93, 37, 91, 30, 38,
  40, 196, 179, 120, 4, 172, 159, 11, 174, 157,
  87, 172, 78, 130, 14, 180, 186, 108, 39, 56,
  10, 113, 155, 225, 247, 253, 20, 204, 20, 13,
  113, 229, 184, 247, 124, 203, 224, 11, 4, 120,
  177, 127, 43, 234, 133, 65, 149, 34, 24, 238,
  6, 255, 121, 19, 38, 211, 8, 16, 117, 4,
  83, 108, 4, 253, 145, 243, 49, 147, 182, 20,
  227, 83, 246, 206, 110, 195, 116, 254, 206, 98,
  1, 189, 141, 17, 38, 57, 10, 116, 81, 202,
  86, 66, 81, 213, 123, 142, 166, 71, 220, 127,
  116, 9, 144, 143, 154, 242]

/-- Cipher configuration: the `_secure` flag and the optional public key of
`IPComEncryption.__init__` / `set_public_key` (`ipcom_tcp_client.py`
lines 93-110). -/
structure CipherCfg where
  secure : Bool
  publicKey : Option (List Nat)

/-- The key byte XORed against position `idx` ("pingPong" in the source).
Dual-key mode (`_public_key is not None and len(self._public_key) > 0`):
`PRIVATE_KEY[idx] ^ public_key[idx % len(public_key)]`; otherwise
single-key mode: `PRIVATE_KEY2[idx]` (`ipcom_tcp_client.py` lines 140-145
and 177-182).  A lookup outside the 256-byte tables (Python `IndexError`)
is `none`. -/
def keyByte (pk : Option (List Nat)) (idx : Nat) : Option Nat :=
  match pk with
  | some pub =>
      if pub.length > 0 then
        match PRIVATE_KEY[idx]?, pub[idx % pub.length]? with
        | some k, some p => some (k ^^^ p)
        | _, _ => none
      else PRIVATE_KEY2[idx]?
  | none => PRIVATE_KEY2[idx]?

/-- Loop body of `IPComEncryption.encrypt` (`ipcom_tcp_client.py` lines
133-150): `ping_pong ^= pos`, XOR the plaintext byte with the key byte,
then `ping_pong = encrypted_byte`. -/
def encryptGo (pk : Option (List Nat)) : Nat → Nat → List Nat → Option (List Nat)
  | _, _, [] => some []
  | pos, pingPong, a :: rest =>
      match keyByte pk (pingPong ^^^ pos) with
      | none => none
      | some kb =>
          match encryptGo pk (pos + 1) (a ^^^ kb) rest with
          | none => none
          | some out => some ((a ^^^ kb) :: out)

/-- Loop body of `IPComEncryption.decrypt` (`ipcom_tcp_client.py` lines
170-187): identical XOR, but `ping_pong` is updated with the ENCRYPTED
input byte, not the decrypted output. -/
def decryptGo (pk : Option (List Nat)) : Nat → Nat → List Nat → Option (List Nat)
  | _, _, [] => some []
  | pos, pingPong, c :: rest =>
      match keyByte pk (pingPong ^^^ pos) with
      | none => none
      | some kb =>
          match decryptGo pk (pos + 1) c rest with
          | none => none
          | some out => some ((c ^^^ kb) :: out)

/-- `IPComEncryption.encrypt`: passthrough when `_secure` is false, else the
XOR stream with per-message feedback starting at zero. -/
def encrypt (cfg : CipherCfg) (data : List Nat) : Option (List Nat) :=
  if cfg.secure then encryptGo cfg.publicKey 0 0 data else some data

/-- `IPComEncryption.decrypt`: passthrough when `_secure` is false, else the
XOR stream with per-message feedback starting at zero. -/
def decrypt (cfg : CipherCfg) (data : List Nat) : Option (List Nat) :=
  if cfg.secure then decryptGo cfg.publicKey 0 0 data else some data

/-- The bytes `IPComClient.request_snapshot` writes to the socket
(`ipcom_tcp_client.py` lines 1288-1315): the literal constant
`KEEPALIVE_BYTES = b'\x79\xdb'`, sent via `sendall` without any call into
the cipher. -/
def requestSnapshotBytes : List Nat := [0x79, 0xdb]

/-- `IPComClient._build_connect_request` (`ipcom_tcp_client.py` lines
591-629): `[1, 2]`, then `"USER:" + username` space-padded to 26 bytes,
then `"PWD:" + password` space-padded to 26 bytes, then the bus number,
then `0`.  `username`/`password` are given as their byte encodings;
`"USER:"` is `[85, 83, 69, 82, 58]`, `"PWD:"` is `[80, 87, 68, 58]`, a
space is `32`.  Python builds the padding as `" " * (26 - len(s))`, which
is empty when the name overflows 26 characters — `List.replicate` with
truncated subtraction behaves identically. -/
def buildConnectRequest (username password : List Nat) (busNumber : Nat) : List Nat :=
  let usernameStr := [85, 83, 69, 82, 58] ++ username
  let usernameField := usernameStr ++ List.replicate (26 - usernameStr.length) 32
  let passwordStr := [80, 87, 68, 58] ++ password
  let passwordField := passwordStr ++ List.replicate (26 - passwordStr.length) 32
  [1, 2] ++ usernameField ++ passwordField ++ [busNumber, 0]

/-! Data models, `src/custom_components/ipcom/cli/models.py` (imported by
the TCP client as `models`). -/

/-- Python exception kinds raised by the modelled code paths. -/
inductive PyErr
  | valueError
  | indexError
  | runtimeError
deriving DecidableEq, Repr

/-- `models.StateSnapshot`: the raw decrypted body plus the decoded
16×8 `outputs` matrix.  The receive timestamp (`time.time()`) carries no
protocol content and is omitted. -/
structure StateSnapshot where
  raw : List Nat
  outputs : List (List Nat)
deriving DecidableEq, Repr

/-- `StateSnapshot.__post_init__` (`models.py` lines 110-118): only when
`len(raw) >= 130` are 16 rows of 8 bytes decoded from offset 2; otherwise
`outputs` is left as the empty list. -/
def mkSnapshot (raw : List Nat) : StateSnapshot :=
  { raw := raw
    outputs :=
      if raw.length ≥ 130 then
        (List.range 16).map (fun moduleIdx => (raw.drop (2 + moduleIdx * 8)).take 8)
      else [] }

/-- `StateSnapshot.get_value` (`models.py` lines 120-139): range checks
raise `ValueError`; then Python's `self.outputs[module-1][output-1]`,
which raises `IndexError` when the matrix (or row) is too short. -/
def StateSnapshot.getValue (s : StateSnapshot) (module output : Nat) : Except PyErr Nat :=
  if ¬(1 ≤ module ∧ module ≤ 16) then .error .valueError
  else if ¬(1 ≤ output ∧ output ≤ 8) then .error .valueError
  else match s.outputs[module - 1]? with
    | none => .error .indexError
    | some row =>
        match row[output - 1]? with
        | none => .error .indexError
        | some v => .ok v

/-- `StateSnapshot.get_module_values` (`models.py` lines 189-202): range
check raises `ValueError`, then `self.outputs[module-1].copy()`, which
raises `IndexError` when `outputs` is too short. -/
def StateSnapshot.getModuleValues (s : StateSnapshot) (module : Nat) : Except PyErr (List Nat) :=
  if ¬(1 ≤ module ∧ module ≤ 16) then .error .valueError
  else match s.outputs[module - 1]? with
    | none => .error .indexError
    | some row => .ok row

/-! The client's mutable state and the snapshot-acceptance paths
(`IPComClient`, `ipcom_tcp_client.py`). -/

/-- The `IPComClient` fields the modelled operations touch: `_connected`,
`_recv_buffer`, `_latest_snapshot` and the `_pending_writes` shadow table
(module number → pending 8-byte row). -/
structure ClientState where
  connected : Bool
  buffer : List Nat
  latestSnapshot : Option StateSnapshot
  pendingWrites : Nat → Option (List Nat)

/-- The raw-snapshot acceptance block inside `_parse_frames`
(`ipcom_tcp_client.py` lines 839-854): build the `StateSnapshot` from the
130 decrypted bytes, store it as `_latest_snapshot`, clear
`_pending_writes`, and hand the snapshot to the observer callback — the
dispatch is the final statement, so the observer runs against the returned
state. -/
def acceptSnapshot (st : ClientState) (decrypted : List Nat) :
    ClientState × StateSnapshot :=
  let snap := mkSnapshot decrypted
  ({ st with latestSnapshot := some snap, pendingWrites := fun _ => none }, snap)

/-- `IPComClient._handle_state_snapshot` (`ipcom_tcp_client.py` lines
1006-1031), the framed command-type-5 path: decode `frame.data` into a
`StateSnapshot`, store it, clear `_pending_writes`, then dispatch to the
observer. -/
def handleStateSnapshot (st : ClientState) (frameData : List Nat) :
    ClientState × StateSnapshot :=
  let snap := mkSnapshot frameData
  ({ st with latestSnapshot := some snap, pendingWrites := fun _ => none }, snap)

/-! Write path: `frame_builder.py` and `IPComClient.set_value`. -/

/-- XOR checksum over data bytes (`frame_builder.py` lines 43-46,
`ipcom_tcp_client.py` `_compute_checksum` lines 966-979). -/
def xorChecksum (data : List Nat) : Nat := data.foldl (· ^^^ ·) 0

/-- `build_exo_set_values_frame` (`frame_builder.py` lines 8-63):
validates the 8-value row, builds data `[0x01] + values`, XOR checksum,
and the frame `[bus?] 23 to from length data checksum` with
`length = len(data) + 1`.  The `exoNumber` argument is accepted and unused,
as in the source. -/
def buildExoSetValuesFrame (fromAddr toAddr _exoNumber : Nat) (values : List Nat)
    (busNumber : Nat) : Except PyErr (List Nat) :=
  if values.length ≠ 8 then .error .valueError
  else if ¬(values.all fun v => v ≤ 255) then .error .valueError
  else
    let data := 1 :: values
    let checksum := xorChecksum data
    .ok ((if busNumber ≠ 0 then [busNumber] else []) ++
         [0x23, toAddr, fromAddr, data.length + 1] ++ data ++ [checksum])

/-- `build_frame_request_command` (`frame_builder.py` lines 66-79):
prefix `[0x04, 0x01]`. -/
def buildFrameRequestCommand (frame : List Nat) : List Nat := [0x04, 0x01] ++ frame

/-- `IPComClient.set_value` (`ipcom_tcp_client.py` lines 1207-1275):
range checks, connection and baseline-snapshot checks, then the shadow
merge — the base row is the pending row for `module` if present, else the
snapshot row; the target output is overwritten; the full row is stored
back in `_pending_writes`; the write command is built via
`build_exo_set_values_frame` at address `60 + (module - 1)` and wrapped in
`build_frame_request_command`.  Returns the new client state and the
plaintext command bytes handed to `send_command`.  (In Python the pending
row is stored before the frame builder can raise; the builder cannot fail
on a validated row, so the success path below is the whole behaviour.) -/
def setValue (st : ClientState) (module output value bus : Nat) :
    Except PyErr (ClientState × List Nat) :=
  if ¬(1 ≤ module ∧ module ≤ 16) then .error .valueError
  else if ¬(1 ≤ output ∧ output ≤ 8) then .error .valueError
  else if ¬(value ≤ 255) then .error .valueError
  else if st.connected = false then .error .runtimeError
  else
    match st.latestSnapshot with
    | none => .error .runtimeError
    | some snap =>
        match (match st.pendingWrites module with
               | some row => Except.ok row
               | none => snap.getModuleValues module) with
        | .error e => .error e
        | .ok base =>
            match buildExoSetValuesFrame 0 (60 + (module - 1)) module
                    (base.set (output - 1) value) bus with
            | .error e => .error e
            | .ok frame =>
                .ok ({ st with pendingWrites :=
                         fun k => if k = module then some (base.set (output - 1) value)
                                  else st.pendingWrites k },
                     buildFrameRequestCommand frame)

/-- The spec's write-carry-over scenario: a 130-byte baseline whose module 3
row is `[10, 20, 30, 40, 50, 60, 70, 80]` (offset 2 + 2·8 = 18). -/
def baselineRaw : List Nat :=
  [5, 1] ++ List.replicate 16 0 ++ [10, 20, 30, 40, 50, 60, 70, 80] ++ List.replicate 104 0

/-- Connected client holding the baseline snapshot, no pending writes. -/
def baselineState : ClientState :=
  { connected := true, buffer := [], latestSnapshot := some (mkSnapshot baselineRaw),
    pendingWrites := fun _ => none }

/-- Module 3 row after `set(3, 2, 99)`. -/
def carryRow1 : List Nat := [10, 99, 30, 40, 50, 60, 70, 80]

/-- Module 3 row after the subsequent `set(3, 5, 111)`. -/
def carryRow2 : List Nat := [10, 99, 30, 40, 111, 60, 70, 80]

/-- State after the first write: `carryRow1` pending for module 3. -/
def carryState1 : ClientState :=
  { baselineState with
    pendingWrites := fun k => if k = 3 then some carryRow1 else baselineState.pendingWrites k }

/-- State after the second write: `carryRow2` pending for module 3. -/
def carryState2 : ClientState :=
  { carryState1 with
    pendingWrites := fun k => if k = 3 then some carryRow2 else carryState1.pendingWrites k }

/-- The full plaintext write command for a module 3 row on bus 2. -/
def carryCmd (row : List Nat) : List Nat :=
  [4, 1] ++ [2] ++ [0x23, 62, 0, 10] ++ (1 :: row) ++ [xorChecksum (1 :: row)]

/-! Receive parser, `IPComClient._parse_frames`
(`ipcom_tcp_client.py` lines 791-948). -/

/-- `models.Frame` (`models.py` lines 11-61): start byte, addresses,
length field (`len(data) + 1`), decrypted data, checksum byte.  (Python's
`to` field is `to_` here; `to` is not a valid Lean field name.) -/
structure Frame where
  start : Nat
  to_ : Nat
  from_ : Nat
  length : Nat
  data : List Nat
  checksum : Nat
deriving DecidableEq, Repr

/-- What `_parse_frames` produces as it walks the buffer: an accepted raw
snapshot (dispatched inline) or a yielded decoded frame. -/
inductive RxEvent
  | snapshot (s : StateSnapshot)
  | frame (f : Frame)
deriving DecidableEq, Repr

/-- The `while len(self._recv_buffer) >= 2` loop of `_parse_frames`,
one constructor case per iteration, with explicit fuel (every iteration
that recurses consumes at least 4 buffer bytes, so `length + 1` fuel is
ample).  Faithful points:
* raw-snapshot branch (lines 813-862): needs `len >= 130` and the
  `79 db` prefix; consumes 130 bytes, decrypts them all, accepts the
  snapshot (`acceptSnapshot`); a decryption failure is caught and skipped
  with the bytes already consumed;
* `len < 5` waits (line 865);
* `find(0x23)` (line 869): when absent, a `79 db` prefix waits for more
  data, anything else clears the buffer; when present, bytes before it
  are discarded;
* header parse (lines 891-916): `total = 4 + (length - 1) + 1`; Python's
  `length - 1` is `-1` when `length = 0`, making `total = 4`, the data
  slice empty and the checksum byte `frame_bytes[3]` — i.e. uniformly
  `total = length + 4` and checksum index `length + 3`, which is what the
  Nat arithmetic below computes;
* checksum verified over the ENCRYPTED data (line 924), then decrypt,
  then `Frame(...)` whose `__post_init__` rejects `length = 0`
  (`len(data) + 1 != 0`), the `ValueError` being caught and skipped. -/
def parseLoop (cfg : CipherCfg) : Nat → ClientState → ClientState × List RxEvent
  | 0, st => (st, [])
  | fuel + 1, st =>
    if st.buffer.length ≥ 2 then
      if st.buffer.length ≥ 130 ∧ st.buffer[0]? = some 0x79 ∧ st.buffer[1]? = some 0xdb then
        let encryptedSnapshot := st.buffer.take 130
        let st1 := { st with buffer := st.buffer.drop 130 }
        match decrypt cfg encryptedSnapshot with
        | none => parseLoop cfg fuel st1
        | some decrypted =>
            let accepted := acceptSnapshot st1 decrypted
            let rest := parseLoop cfg fuel accepted.1
            (rest.1, .snapshot accepted.2 :: rest.2)
      else if st.buffer.length < 5 then (st, [])
      else
        match st.buffer.findIdx? (fun b => b = 0x23) with
        | none =>
            if st.buffer[0]? = some 0x79 ∧ st.buffer[1]? = some 0xdb then (st, [])
            else ({ st with buffer := [] }, [])
        | some startIdx =>
            let st1 := { st with buffer := st.buffer.drop startIdx }
            if st1.buffer.length < 4 then (st1, [])
            else
              let length := st1.buffer.getD 3 0
              let totalSize := length + 4
              if st1.buffer.length < totalSize then (st1, [])
              else
                let frameBytes := st1.buffer.take totalSize
                let st2 := { st1 with buffer := st1.buffer.drop totalSize }
                let encryptedData := (frameBytes.drop 4).take (length - 1)
                let checksum := frameBytes.getD (length + 3) 0
                if xorChecksum encryptedData ≠ checksum then parseLoop cfg fuel st2
                else
                  match decrypt cfg encryptedData with
                  | none => parseLoop cfg fuel st2
                  | some data =>
                      if length = 0 then parseLoop cfg fuel st2
                      else
                        let fr : Frame :=
                          { start := 0x23, to_ := frameBytes.getD 1 0,
                            from_ := frameBytes.getD 2 0, length := length,
                            data := data, checksum := checksum }
                        let rest := parseLoop cfg fuel st2
                        (rest.1, .frame fr :: rest.2)
    else (st, [])

/-- `IPComClient._parse_frames`: run the loop until it waits or the buffer
is exhausted. -/
def parseFrames (cfg : CipherCfg) (st : ClientState) : ClientState × List RxEvent :=
  parseLoop cfg (st.buffer.length + 1) st

/-- A receive buffer holding the first 5 bytes of a snapshot whose
(encrypted) body happens to contain a `0x23` byte at offset 2. -/
def partialSnapshotState : ClientState :=
  { connected := true, buffer := [0x79, 0xdb, 0x23, 0, 0], latestSnapshot := none,
    pendingWrites := fun _ => none }

/-! Cover safety: `control_cover` (`ipcom_cli.py` lines 347-479) and the
dual-relay cover entity (`cover.py` lines 297-404). -/

/-- Cover actions accepted by `control_cover`. -/
inductive CoverAction
  | openCover
  | closeCover
  | stopCover
deriving DecidableEq, Repr

/-- The ON value used by `IPComClient.turn_on` (`ipcom_tcp_client.py`
lines 1170-1177): 100 for the dimmer module 6, else 255. -/
def onValue (module : Nat) : Nat := if module = 6 then 100 else 255

/-- The sequence of relay writes `control_cover` issues, each as
`(module, output, value)` — `turn_off` writes 0, `turn_on` writes
`onValue module` (`ipcom_cli.py` lines 423-479) — together with whether
the forbidden-state safety warning was reported.  `snap` is the pair of
relay values `get_value` reads from the latest snapshot (`none` when no
snapshot is available, in which case the check is skipped, lines
424-434): when both are `> 0` the requested action is replaced by `stop`
and a warning printed. -/
def controlCover (snap : Option (Nat × Nat)) (upModule upOutput downModule downOutput : Nat)
    (action : CoverAction) : List (Nat × Nat × Nat) × Bool :=
  let checked : CoverAction × Bool :=
    match snap with
    | some (upValue, downValue) =>
        if upValue > 0 ∧ downValue > 0 then (.stopCover, true) else (action, false)
    | none => (action, false)
  match checked.1 with
  | .openCover =>
      ([(downModule, downOutput, 0), (upModule, upOutput, onValue upModule)], checked.2)
  | .closeCover =>
      ([(upModule, upOutput, 0), (downModule, downOutput, onValue downModule)], checked.2)
  | .stopCover =>
      ([(upModule, upOutput, 0), (downModule, downOutput, 0)], checked.2)

/-- `IPComDualRelayCover.async_open_cover` (`cover.py` lines 297-334):
turn the DOWN relay off first only when it reads `> 0`; abort if that
command fails; then turn the UP relay on. -/
def asyncOpenCover (upModule upOutput downModule downOutput downState : Nat)
    (offOk : Bool) : List (Nat × Nat × Nat) :=
  if downState > 0 then
    (downModule, downOutput, 0) ::
      (if offOk then [(upModule, upOutput, onValue upModule)] else [])
  else [(upModule, upOutput, onValue upModule)]

/-- `IPComDualRelayCover.async_close_cover` (`cover.py` lines 336-373),
symmetric to opening. -/
def asyncCloseCover (upModule upOutput downModule downOutput upState : Nat)
    (offOk : Bool) : List (Nat × Nat × Nat) :=
  if upState > 0 then
    (upModule, upOutput, 0) ::
      (if offOk then [(downModule, downOutput, onValue downModule)] else [])
  else [(downModule, downOutput, onValue downModule)]

/-- `IPComDualRelayCover.async_stop_cover` (`cover.py` lines 375-404):
both relays off, unconditionally. -/
def asyncStopCover (upModule upOutput downModule downOutput : Nat) :
    List (Nat × Nat × Nat) :=
  [(upModule, upOutput, 0), (downModule, downOutput, 0)]

/-- Effect of one relay write on the commanded (up, down) relay pair:
a write addressed to the UP relay sets the up component, one addressed to
the DOWN relay sets the down component, any other address is untouched
state. -/
def applyCoverWrite (upAddr downAddr : Nat × Nat) (s : Nat × Nat)
    (w : Nat × Nat × Nat) : Nat × Nat :=
  if (w.1, w.2.1) = upAddr then (w.2.2, s.2)
  else if (w.1, w.2.1) = downAddr then (s.1, w.2.2)
  else s

/-- All commanded relay states a write sequence passes through, the
initial state included. -/
def coverTrace (upAddr downAddr : Nat × Nat) (s : Nat × Nat)
    (writes : List (Nat × Nat × Nat)) : List (Nat × Nat) :=
  writes.scanl (applyCoverWrite upAddr downAddr) s

/-! Supervisor restart backoff, `IPComCoordinator` (`coordinator.py`).
Delays are in seconds; the Python floats (`_restart_delay = 5.0`,
`_max_restart_delay = 300.0`) only ever hold integer values multiplied by
powers of two, so the arithmetic is modelled exactly over Nat. -/

/-- The coordinator state the backoff logic touches:
`_consecutive_failures` (`coordinator.py` line 116). -/
structure Supervisor where
  consecutiveFailures : Nat
deriving DecidableEq, Repr

/-- One session failure in `_handle_subprocess_exit` (`coordinator.py`
lines 557 and 618-637, with `connection_type ≠ BOTH` so no fallback
branch): increment `_consecutive_failures`, then wait
`min(restart_delay * 2 ** (failures - 1), max_restart_delay)` before the
restart attempt.  Returns the new state and the delay slept. -/
def superviseFail (restartDelay maxRestartDelay : Nat) (s : Supervisor) : Supervisor × Nat :=
  let failures := s.consecutiveFailures + 1
  (⟨failures⟩, min (restartDelay * 2 ^ (failures - 1)) maxRestartDelay)

/-- A successful (re)start (`coordinator.py` line 274): the failure
counter resets to zero. -/
def superviseSuccess (_s : Supervisor) : Supervisor := ⟨0⟩

/-- `n` consecutive failures in sequence, collecting the delay slept
before each retry. -/
def runFailures (restartDelay maxRestartDelay : Nat) : Nat → Supervisor → Supervisor × List Nat
  | 0, s => (s, [])
  | n + 1, s =>
      let step := superviseFail restartDelay maxRestartDelay s
      let rest := runFailures restartDelay maxRestartDelay n step.1
      (rest.1, step.2 :: rest.2)

/-! Theorems. -/

lemma decryptGo_encryptGo (pk : Option (List Nat)) :
    ∀ (m : List Nat) (pos pingPong : Nat) (out : List Nat),
      encryptGo pk pos pingPong m = some out →
      decryptGo pk pos pingPong out = some m := by
  intro m
  induction m with
  | nil =>
      intro pos pingPong out h
      simp only [encryptGo] at h
      cases h
      simp [decryptGo]
  | cons a rest ih =>
      intro pos pingPong out h
      cases hk : keyByte pk (pingPong ^^^ pos) with
      | none =>
          simp only [encryptGo, hk] at h
          exact Option.noConfusion h
      | some kb =>
          cases hr : encryptGo pk (pos + 1) (a ^^^ kb) rest with
          | none =>
              simp only [encryptGo, hk, hr] at h
              exact Option.noConfusion h
          | some tl =>
              simp only [encryptGo, hk, hr, Option.some.injEq] at h
              subst h
              simp only [decryptGo, hk]
              rw [ih (pos + 1) (a ^^^ kb) tl hr]
              simp [Nat.xor_cancel_right]

/-- C1: for every byte buffer `m` and every fixed key configuration
(single-key, dual-key with any installed public key, or passthrough),
decrypting the result of encrypting `m` returns `m`: the cipher transform
with per-message feedback starting at index 0 and advanced by the
ciphertext byte is self-inverse. -/
theorem c1_cipher_self_inverse (cfg : CipherCfg) (m out : List Nat)
    (h : encrypt cfg m = some out) : decrypt cfg out = some m := by
  unfold encrypt at h
  unfold decrypt
  by_cases hs : cfg.secure
  · simp only [hs, if_true] at h ⊢
    exact decryptGo_encryptGo cfg.publicKey m 0 0 out h
  · simp only [hs, if_false] at h ⊢
    cases h
    rfl

/-- Witness for C1: the single-key encryption of the status-request
plaintext `05 01` is `09 55`, and the theorem gives its decryption back. -/
theorem c1_cipher_self_inverse_witness :
    encrypt ⟨true, none⟩ [5, 1] = some [9, 85] ∧
    decrypt ⟨true, none⟩ [9, 85] = some [5, 1] :=
  ⟨by decide, c1_cipher_self_inverse ⟨true, none⟩ [5, 1] [9, 85] (by decide)⟩

/-- C4 counterexample: the claim that the status request is the plaintext
`05 01` encrypted with the current cipher state, and that under the
dual-key cipher (any installed 128-byte public key) this encryption equals
`79 db`, is false: with the all-zero 128-byte public key installed, the
dual-key encryption of `05 01` is `56 f2`, not `79 db`. -/
theorem c4_status_request_counterexample :
    (List.replicate 128 0).length = 128 ∧
    encrypt ⟨true, some (List.replicate 128 0)⟩ [5, 1] = some [0x56, 0xf2] ∧
    encrypt ⟨true, some (List.replicate 128 0)⟩ [5, 1] ≠ some requestSnapshotBytes := by
  refine ⟨by decide, by decide, ?_⟩
  intro h
  rw [show encrypt ⟨true, some (List.replicate 128 0)⟩ [5, 1] = some [0x56, 0xf2] from by decide] at h
  simp [requestSnapshotBytes] at h

/-- C4 (amended): the status request the client emits is the literal
two-byte buffer `79 db`, written raw without passing through the cipher;
the dual-key encryption of the plaintext `05 01` does not in general equal
those wire bytes (it depends on the installed public key), and the
single-key encryption of `05 01` is `09 55`. -/
theorem c4_status_request_literal :
    requestSnapshotBytes = [0x79, 0xdb] ∧
    encrypt ⟨true, none⟩ [5, 1] = some [0x09, 0x55] ∧
    encrypt ⟨true, some (List.replicate 128 0)⟩ [5, 1] ≠ some requestSnapshotBytes := by
  refine ⟨rfl, by decide, ?_⟩
  intro h
  rw [show encrypt ⟨true, some (List.replicate 128 0)⟩ [5, 1] = some [0x56, 0xf2] from by decide] at h
  simp [requestSnapshotBytes] at h

/-- C8: for username `"u"` (byte 117), password `"p"` (byte 112) and bus
number 1, the ConnectRequest payload is exactly 56 bytes: bytes 0-1 are
`01 02`, bytes 2..27 are ASCII `"USER:u"` followed by 20 spaces, bytes
28..53 are `"PWD:p"` followed by 21 spaces, byte 54 is `01`, byte 55 is
`00`. -/
theorem c8_connect_request_layout :
    (buildConnectRequest [117] [112] 1).length = 56 ∧
    (buildConnectRequest [117] [112] 1).take 2 = [1, 2] ∧
    ((buildConnectRequest [117] [112] 1).drop 2).take 26 =
      [85, 83, 69, 82, 58, 117] ++ List.replicate 20 32 ∧
    ((buildConnectRequest [117] [112] 1).drop 28).take 26 =
      [80, 87, 68, 58, 112] ++ List.replicate 21 32 ∧
    (buildConnectRequest [117] [112] 1)[54]? = some 1 ∧
    (buildConnectRequest [117] [112] 1)[55]? = some 0 := by
  decide

/-- C10: for every `StateSnapshot` built from a raw buffer shorter than
130 bytes, the outputs matrix is left empty, and `get_value` /
`get_module_values` with in-range arguments fail with `IndexError` rather
than returning a value or raising the documented range error. -/
theorem c10_short_snapshot_index_error (raw : List Nat) (h : raw.length < 130)
    (module output : Nat)
    (hm1 : 1 ≤ module) (hm2 : module ≤ 16) (ho1 : 1 ≤ output) (ho2 : output ≤ 8) :
    (mkSnapshot raw).outputs = [] ∧
    (mkSnapshot raw).getValue module output = .error .indexError ∧
    (mkSnapshot raw).getModuleValues module = .error .indexError := by
  have hout : (mkSnapshot raw).outputs = [] := by
    simp only [mkSnapshot]
    rw [if_neg (by omega)]
  refine ⟨hout, ?_, ?_⟩
  · simp only [StateSnapshot.getValue, hout]
    rw [if_neg (by omega), if_neg (by omega)]
    simp
  · simp only [StateSnapshot.getModuleValues, hout]
    rw [if_neg (by omega)]
    simp

/-- Witness for C10 at the empty raw buffer, module 1, output 1. -/
theorem c10_short_snapshot_index_error_witness :
    (List.length ([] : List Nat) < 130) ∧
    (mkSnapshot []).outputs = [] ∧
    (mkSnapshot []).getValue 1 1 = .error .indexError ∧
    (mkSnapshot []).getModuleValues 1 = .error .indexError :=
  ⟨by decide,
   (c10_short_snapshot_index_error [] (by decide) 1 1 (by decide) (by decide)
      (by decide) (by decide)).1,
   (c10_short_snapshot_index_error [] (by decide) 1 1 (by decide) (by decide)
      (by decide) (by decide)).2.1,
   (c10_short_snapshot_index_error [] (by decide) 1 1 (by decide) (by decide)
      (by decide) (by decide)).2.2⟩

/-- C5: every time a snapshot is accepted — whether through the 130-byte
raw path of `_parse_frames` or the framed command-type-5 path of
`_handle_state_snapshot` — the entire PendingWrites table is emptied
before the snapshot observer is dispatched, so PendingWrites is empty
immediately after observer dispatch. -/
theorem c5_pending_writes_cleared_on_snapshot :
    ∀ (st : ClientState) (bytes : List Nat) (module : Nat),
      (acceptSnapshot st bytes).1.pendingWrites module = none ∧
      (acceptSnapshot st bytes).2 = mkSnapshot bytes ∧
      (handleStateSnapshot st bytes).1.pendingWrites module = none ∧
      (handleStateSnapshot st bytes).2 = mkSnapshot bytes := by
  intro st bytes module
  exact ⟨rfl, rfl, rfl, rfl⟩

lemma all_le_set {l : List Nat} {i v : Nat} (hl : (l.all fun x => x ≤ 255) = true)
    (hv : v ≤ 255) : ((l.set i v).all fun x => x ≤ 255) = true := by
  rw [List.all_eq_true] at hl ⊢
  intro x hx
  rcases List.mem_or_eq_of_mem_set hx with h | h
  · exact hl x h
  · subst h; simpa using hv

/-- C2: for every `set_value(module, output, v)` after a baseline snapshot,
the emitted 8-byte row `R` (the base row from PendingWrites if present,
else the snapshot row, with position `output-1` overwritten by `v`)
satisfies `R[output-1] = v` and agrees with the base row everywhere else;
the full row is stored back in PendingWrites under `module`, and the
emitted command is `04 01 [bus] 23 (60+module-1) 00 0A 01 R xor(01 R)`. -/
theorem c2_set_value_carry_over (st : ClientState) (module output value bus : Nat)
    (snap : StateSnapshot) (base : List Nat)
    (hm1 : 1 ≤ module) (hm2 : module ≤ 16) (ho1 : 1 ≤ output) (ho2 : output ≤ 8)
    (hv : value ≤ 255) (hc : st.connected = true) (hs : st.latestSnapshot = some snap)
    (hbase : (match st.pendingWrites module with
              | some row => Except.ok row
              | none => snap.getModuleValues module) = Except.ok base)
    (hlen : base.length = 8) (hall : (base.all fun x => x ≤ 255) = true)
    (hbus : bus ≠ 0) :
    setValue st module output value bus =
      .ok ({ st with pendingWrites :=
               fun k => if k = module then some (base.set (output - 1) value)
                        else st.pendingWrites k },
           [4, 1] ++ [bus] ++ [0x23, 60 + (module - 1), 0, 10] ++
             (1 :: base.set (output - 1) value) ++
             [xorChecksum (1 :: base.set (output - 1) value)]) ∧
    (base.set (output - 1) value)[output - 1]? = some value ∧
    ∀ j, j ≠ output - 1 → (base.set (output - 1) value)[j]? = base[j]? := by
  have hbuild : buildExoSetValuesFrame 0 (60 + (module - 1)) module
      (base.set (output - 1) value) bus =
      .ok ([bus] ++ [0x23, 60 + (module - 1), 0, 10] ++
        (1 :: base.set (output - 1) value) ++
        [xorChecksum (1 :: base.set (output - 1) value)]) := by
    unfold buildExoSetValuesFrame
    rw [if_neg (show ¬(base.set (output - 1) value).length ≠ 8 by
          simp [List.length_set, hlen]),
        if_neg (show ¬¬((base.set (output - 1) value).all fun v => v ≤ 255) = true from
          not_not_intro (all_le_set hall hv))]
    rw [if_pos hbus]
    simp [List.length_set, hlen]
  refine ⟨?_, ?_, ?_⟩
  · unfold setValue
    rw [if_neg (show ¬¬(1 ≤ module ∧ module ≤ 16) from not_not_intro ⟨hm1, hm2⟩),
        if_neg (show ¬¬(1 ≤ output ∧ output ≤ 8) from not_not_intro ⟨ho1, ho2⟩),
        if_neg (show ¬¬(value ≤ 255) from not_not_intro hv),
        if_neg (show ¬(st.connected = false) by simp [hc]),
        hs]
    dsimp only
    rw [hbase]
    dsimp only
    rw [hbuild]
    rfl
  · exact List.getElem?_set_self (by omega)
  · intro j hj
    exact List.getElem?_set_ne (Ne.symm hj)

/-- Witness for C2 — the spec's scenario: `set(3, 2, 99)` then, before any
new snapshot, `set(3, 5, 111)`; the two frames carry data payloads
`01 10 99 30 40 50 60 70 80` and `01 10 99 30 40 111 60 70 80`. -/
theorem c2_set_value_carry_over_witness :
    setValue baselineState 3 2 99 2 = .ok (carryState1, carryCmd carryRow1) ∧
    setValue carryState1 3 5 111 2 = .ok (carryState2, carryCmd carryRow2) :=
  ⟨(c2_set_value_carry_over baselineState 3 2 99 2 (mkSnapshot baselineRaw)
      [10, 20, 30, 40, 50, 60, 70, 80]
      (by decide) (by decide) (by decide) (by decide) (by decide) rfl rfl
      rfl (by decide) (by decide) (by decide)).1,
   (c2_set_value_carry_over carryState1 3 5 111 2 (mkSnapshot baselineRaw)
      carryRow1
      (by decide) (by decide) (by decide) (by decide) (by decide) rfl rfl
      rfl (by decide) (by decide) (by decide)).1⟩

/-- C3 (refuting evaluation): on a buffer that begins with `79 db` but
holds fewer than 130 bytes, the parser does NOT always wait — when the
partial snapshot body contains a `0x23` byte, `_parse_frames` discards
the two prefix bytes and re-interprets the tail as a framed message
(the partial-snapshot wait at lines 872-876 is only reachable when no
`0x23` occurs anywhere in the buffer).  Evaluated at the failing input
`79 db 23 00 00`: the parser consumes the prefix, leaving `23 00 00`. -/
theorem c3_parser_consumes_partial_snapshot :
    (parseFrames ⟨true, none⟩ partialSnapshotState).1.buffer = [0x23, 0, 0] ∧
    (parseFrames ⟨true, none⟩ partialSnapshotState).2 = [] ∧
    partialSnapshotState.buffer = [0x79, 0xdb, 0x23, 0, 0] := by
  exact ⟨rfl, rfl, rfl⟩

/-- C6: for every cover command, if the latest snapshot shows the
forbidden wire state (`up > 0` and `down > 0`), the command is executed
as stop — both relays commanded to 0 — regardless of the request, the
safety warning is reported, and every write the command emits carries
value 0. -/
theorem c6_forbidden_state_forces_stop (action : CoverAction)
    (upValue downValue upModule upOutput downModule downOutput : Nat)
    (hu : upValue > 0) (hd : downValue > 0) :
    controlCover (some (upValue, downValue)) upModule upOutput downModule downOutput action
      = ([(upModule, upOutput, 0), (downModule, downOutput, 0)], true) ∧
    ∀ w ∈ (controlCover (some (upValue, downValue)) upModule upOutput downModule
             downOutput action).1, w.2.2 = 0 := by
  have hc : controlCover (some (upValue, downValue)) upModule upOutput downModule
      downOutput action
      = ([(upModule, upOutput, 0), (downModule, downOutput, 0)], true) := by
    simp only [controlCover]
    rw [if_pos ⟨hu, hd⟩]
  refine ⟨hc, ?_⟩
  rw [hc]
  intro w hw
  simp only [List.mem_cons, List.not_mem_nil, or_false] at hw
  rcases hw with rfl | rfl
  · rfl
  · rfl

/-- Witness for C6: the spec's pathological baseline up=255, down=255 with
an `open` request. -/
theorem c6_forbidden_state_forces_stop_witness :
    ((255 : Nat) > 0 ∧ (255 : Nat) > 0) ∧
    controlCover (some (255, 255)) 5 8 5 7 .openCover = ([(5, 8, 0), (5, 7, 0)], true) :=
  ⟨by decide,
   (c6_forbidden_state_forces_stop .openCover 255 255 5 8 5 7 (by decide) (by decide)).1⟩

/-- C7: for every cover action starting from a non-forbidden relay state,
the sequence of commanded relay states never passes through "up on and
down on" simultaneously — for the CLI `control_cover` paths (open writes
the DOWN relay to 0 before turning the UP relay on, close symmetrically,
stop only writes zeros) and for the cover entity's
`async_open_cover` / `async_close_cover` / `async_stop_cover` paths. -/
theorem c7_no_forbidden_transition (action : CoverAction)
    (upValue downValue upModule upOutput downModule downOutput : Nat)
    (hsafe : ¬(upValue > 0 ∧ downValue > 0))
    (hne : (upModule, upOutput) ≠ (downModule, downOutput)) :
    (∀ s ∈ coverTrace (upModule, upOutput) (downModule, downOutput) (upValue, downValue)
        (controlCover (some (upValue, downValue)) upModule upOutput downModule downOutput
          action).1, ¬(s.1 > 0 ∧ s.2 > 0)) ∧
    (∀ offOk : Bool, ∀ s ∈ coverTrace (upModule, upOutput) (downModule, downOutput)
        (upValue, downValue)
        (asyncOpenCover upModule upOutput downModule downOutput downValue offOk),
        ¬(s.1 > 0 ∧ s.2 > 0)) ∧
    (∀ offOk : Bool, ∀ s ∈ coverTrace (upModule, upOutput) (downModule, downOutput)
        (upValue, downValue)
        (asyncCloseCover upModule upOutput downModule downOutput upValue offOk),
        ¬(s.1 > 0 ∧ s.2 > 0)) ∧
    (∀ s ∈ coverTrace (upModule, upOutput) (downModule, downOutput) (upValue, downValue)
        (asyncStopCover upModule upOutput downModule downOutput),
        ¬(s.1 > 0 ∧ s.2 > 0)) := by
  have hne' : ((downModule, downOutput) : Nat × Nat) ≠ (upModule, upOutput) := Ne.symm hne
  refine ⟨?_, ?_, ?_, ?_⟩
  · cases action <;>
      simp only [controlCover, if_neg hsafe] <;>
      simp only [coverTrace, List.scanl, applyCoverWrite, if_pos rfl, if_neg hne,
        if_neg hne', List.mem_cons, List.not_mem_nil, or_false] <;>
      rintro s (rfl | rfl | rfl) <;> simp_all
  · intro offOk
    by_cases hd : downValue > 0
    · rw [asyncOpenCover, if_pos hd]
      cases offOk <;>
        simp only [coverTrace, List.scanl, applyCoverWrite, if_pos rfl, if_neg hne,
          if_neg hne', List.mem_cons, List.not_mem_nil, or_false, if_true, if_false] <;>
        rintro s (rfl | rfl | rfl) <;> simp_all
    · rw [asyncOpenCover, if_neg hd]
      simp only [coverTrace, List.scanl, applyCoverWrite, if_pos rfl, if_neg hne,
        if_neg hne', List.mem_cons, List.not_mem_nil, or_false]
      rintro s (rfl | rfl) <;> simp_all
  · intro offOk
    by_cases hu : upValue > 0
    · rw [asyncCloseCover, if_pos hu]
      cases offOk <;>
        simp only [coverTrace, List.scanl, applyCoverWrite, if_pos rfl, if_neg hne,
          if_neg hne', List.mem_cons, List.not_mem_nil, or_false, if_true, if_false] <;>
        rintro s (rfl | rfl | rfl) <;> simp_all
    · rw [asyncCloseCover, if_neg hu]
      simp only [coverTrace, List.scanl, applyCoverWrite, if_pos rfl, if_neg hne,
        if_neg hne', List.mem_cons, List.not_mem_nil, or_false]
      rintro s (rfl | rfl) <;> simp_all
  · simp only [asyncStopCover, coverTrace, List.scanl, applyCoverWrite, if_pos rfl,
      if_neg hne, if_neg hne', List.mem_cons, List.not_mem_nil, or_false]
    rintro s (rfl | rfl | rfl) <;> simp_all

/-- Witness for C7: opening from the "closing" baseline up=0, down=255 on
distinct relays (module 5, outputs 8 and 7); the final commanded state
(255, 0) appears in the trace and is not forbidden. -/
theorem c7_no_forbidden_transition_witness :
    (255, 0) ∈ coverTrace (5, 8) (5, 7) (0, 255)
      (controlCover (some (0, 255)) 5 8 5 7 .openCover).1 ∧
    ¬((255 : Nat) > 0 ∧ (0 : Nat) > 0) :=
  ⟨by decide,
   (c7_no_forbidden_transition .openCover 0 255 5 8 5 7 (by decide) (by decide)).1
     (255, 0) (by decide)⟩

lemma runFailures_delays (base maxD : Nat) :
    ∀ (n c : Nat),
      (runFailures base maxD n ⟨c⟩).2 =
        (List.range n).map (fun i => min (base * 2 ^ (c + i)) maxD) := by
  intro n
  induction n with
  | zero => intro c; simp [runFailures]
  | succ n ih =>
      intro c
      simp only [runFailures, superviseFail]
      rw [ih (c + 1)]
      rw [List.range_succ_eq_map]
      simp only [List.map_cons, List.map_map, Nat.add_sub_cancel, Nat.add_zero]
      congr 1
      apply List.map_congr_left
      intro i _
      simp only [Function.comp, Nat.succ_eq_add_one]
      have h : c + 1 + i = c + (i + 1) := by omega
      rw [h]

/-- C9: the restart delay before the n-th consecutive retry equals
`base * 2^(n-1)` clamped to the maximum delay; with base 1 s and max 8 s,
four consecutive failures sleep 1 s, 2 s, 4 s, 8 s; and the failure
counter resets to zero on the first successful restart. -/
theorem c9_backoff_and_reset :
    (∀ base maxD n : Nat,
      (runFailures base maxD n ⟨0⟩).2 =
        (List.range n).map (fun i => min (base * 2 ^ i) maxD)) ∧
    (runFailures 1 8 4 ⟨0⟩).2 = [1, 2, 4, 8] ∧
    ∀ s : Supervisor, (superviseSuccess s).consecutiveFailures = 0 := by
  refine ⟨?_, by decide, fun s => rfl⟩
  intro base maxD n
  simpa using runFailures_delays base maxD n 0

end IPCom
